import Mathlib

/-!
Verification of the execution-lifecycle core of `openhtf.exe.TestExecutor`
(src/openhtf/exe/__init__.py) against its natural-language specification.

The file shallowly embeds the executor: its constructor, the external
operations `Stop`, `Finalize`, `Wait`, `GetState`, the worker procedure
`_ThreadProc` / `_ExecuteTestPhases`, and the cleanup (exit) stack.
Collaborators that the repository slice does not contain (`test_state.TestState`,
`test_record.Outcome`, `conf`, `openhtf.PhaseDescriptor.WrapOrCopy`,
`contextlib2.ExitStack`, `phase_executor.PhaseExecutor`) are modelled from the
specification's interface contracts and so marked.

Python-level behaviors that matter to the claims are made explicit:
an instance attribute that was never assigned is distinguished from one
assigned `None` (reading the former raises `AttributeError`), and exceptions
are modelled with an explicit error type.
-/

namespace OpenHTF

/-- Python-level exceptions raised along the control paths the claims mention. -/
inductive PyErr
  | attributeError        -- reading a never-assigned instance attribute
  | testStopError         -- TestStopError (line 41)
  | keyboardInterrupt     -- KeyboardInterrupt
  | testAlreadyFinalized  -- raised by TestState.Finalize on a finalized state
  | threadTermination     -- KillableThread kill delivery
  deriving DecidableEq, Repr

/-- Modelled from the spec: `test_record.Outcome`, the enumerated terminal
result of a run (spec section 3: PASS, FAIL, ERROR, ABORTED). -/
inductive Outcome
  | PASS
  | FAIL
  | ERROR
  | ABORTED
  deriving DecidableEq, Repr

/-- Modelled from the spec: one element of the lazy sequence produced by the
phase-execution engine; `is_terminal` is what
`TestState.SetStatusFromPhaseOutcome` reports (true = stop early). -/
structure PhaseOutcome where
  result : Outcome
  is_terminal : Bool
  deriving DecidableEq, Repr

/-- Modelled from the spec: `test_state.TestState`, the single mutable record
of an in-progress run (spec sections 3 and 6).  `derived` stands for the
outcome that would be derived from the accumulated phase statuses. -/
structure TestState where
  status_running : Bool := false
  derived : Outcome := Outcome.PASS
  is_finalized : Bool := false
  outcome : Option Outcome := none
  deriving DecidableEq, Repr

/-- Modelled from the spec: `TestState.Finalize(outcome = derived-or-explicit)`
fails if already finalized (spec section 6); otherwise it seals the record
with the explicit outcome, or the derived one when no outcome is given. -/
def TestState.Finalize (ts : TestState) (explicit : Option Outcome) :
    Except PyErr TestState :=
  if ts.is_finalized then Except.error PyErr.testAlreadyFinalized
  else Except.ok { ts with is_finalized := true,
                           outcome := some (explicit.getD ts.derived) }

/-- Modelled from the spec: `TestState.SetStatusRunning()` (spec section 6). -/
def TestState.SetStatusRunning (ts : TestState) : TestState :=
  { ts with status_running := true }

/-- Modelled from the spec: `TestState.SetStatusFromPhaseOutcome(outcome)`
advances the status and returns true when the test should stop early
(spec sections 4.3 step 4 and 6). -/
def TestState.SetStatusFromPhaseOutcome (ts : TestState) (po : PhaseOutcome) :
    TestState × Bool :=
  ({ ts with derived := po.result }, po.is_terminal)

/-- Phase options; `timeout_s` mirrors `PhaseDescriptor.options.timeout_s`. -/
structure PhaseOptions where
  timeout_s : Option Int := none
  deriving DecidableEq, Repr

/-- A phase of test logic.  `ident` stands for the identity of the wrapped
function, to show the override keeps everything but the timeout. -/
structure PhaseDescriptor where
  ident : Nat := 0
  options : PhaseOptions := {}
  deriving DecidableEq, Repr

/-- Modelled from the spec: `openhtf.PhaseDescriptor.WrapOrCopy` wraps or
copies the supplied function into a PhaseDescriptor, keeping its declared
options. -/
def PhaseDescriptor.WrapOrCopy (p : PhaseDescriptor) : PhaseDescriptor := p

/-- Modelled from the spec: the single configuration tunable consumed by the
executor, `conf.teardown_timeout_s`, with its documented default of 3
(lines 37-38). -/
structure Conf where
  teardown_timeout_s : Int := 3
  deriving DecidableEq, Repr

/-- The test descriptor: an ordered sequence of phases plus metadata,
read-only to the executor (spec section 3). -/
structure TestDescriptor where
  phases : List PhaseDescriptor := []
  deriving DecidableEq, Repr

/-- The two release actions `_ThreadProc` registers on the exit stack:
`self._test_state.plug_manager.TearDownPlugs` (line 146) and
`executor.Stop` of the phase executor (line 167). -/
inductive Action
  | tearDownPlugs
  | executorStop
  deriving DecidableEq, Repr

/-- Modelled from the spec: `contextlib2.ExitStack` as the ScopedCleanupStack
of spec section 4.1 — an ordered list of release actions.  `callbacks` holds
the pushed actions most-recent first. -/
structure ExitStack where
  callbacks : List Action := []
  deriving DecidableEq, Repr

/-- `exit_stack.callback(action)` pushes a release action (lines 146, 167). -/
def ExitStack.callback (s : ExitStack) (a : Action) : ExitStack :=
  ⟨a :: s.callbacks⟩

/-- Modelled from the spec: `close()` invokes all pushed actions in reverse
order of pushing and leaves the stack spent, so a second close releases
nothing (spec section 4.1).  Returns the actions run, in run order. -/
def ExitStack.close (s : ExitStack) : List Action × ExitStack :=
  (s.callbacks, ⟨[]⟩)

/-- A Python instance attribute: `unset` means it was never assigned, so
reading it raises AttributeError. -/
inductive Attr (α : Type)
  | unset
  | set (v : α)
  deriving DecidableEq, Repr

/-- The executor object.  `__init__` (lines 53-65) assigns
`_teardown_function`, `_test_descriptor`, `_test_start` and `_lock`; the
attributes `_test_state`, `_exit_stack` and `_output_thread` are first
assigned inside `_ThreadProc` (lines 114-117), hence default to `unset`.
`killed` records that `Kill()` was requested on the KillableThread. -/
structure TestExecutor where
  teardown_function : Option PhaseDescriptor := none
  test_descriptor : TestDescriptor := {}
  test_start : Option Unit := none
  test_state : Attr (Option TestState) := Attr.unset
  exit_stack : Attr (Option ExitStack) := Attr.unset
  killed : Bool := false
  deriving DecidableEq, Repr

/-- `TestExecutor.__init__` (lines 53-65): wrap-or-copy the teardown function
when one is supplied and force its timeout to `conf.teardown_timeout_s`
(lines 56-61); store the descriptor and start trigger.  `_test_state` and
`_exit_stack` are not assigned here. -/
def TestExecutor.init (td : TestDescriptor) (c : Conf)
    (test_start : Option Unit) (teardown_function : Option PhaseDescriptor) :
    TestExecutor :=
  { teardown_function :=
      teardown_function.map (fun f =>
        let w := PhaseDescriptor.WrapOrCopy f
        { w with options := { w.options with
                                timeout_s := some c.teardown_timeout_s } }),
    test_descriptor := td,
    test_start := test_start }

/-- `KillableThread.Kill()` as called from `Stop` (line 77): requests
asynchronous, best-effort termination of the worker. -/
def TestExecutor.Kill (ex : TestExecutor) : TestExecutor :=
  { ex with killed := true }

/-- `TestExecutor.Stop` (lines 71-77): under the lock, read `_exit_stack`
(AttributeError if never assigned); if it is truthy — any ExitStack object,
closed or not, is truthy; only `None` is falsy — close it; then `Kill()`.
Returns the updated executor and the release actions run by the close. -/
def TestExecutor.Stop (ex : TestExecutor) :
    Except PyErr (TestExecutor × List Action) :=
  match ex.exit_stack with
  | Attr.unset => Except.error PyErr.attributeError
  | Attr.set none => Except.ok (ex.Kill, [])
  | Attr.set (some st) =>
      let (released, st2) := st.close
      Except.ok (({ ex with exit_stack := Attr.set (some st2) }).Kill, released)

/-- `TestExecutor.GetState` (lines 108-110): return `self._test_state`
(AttributeError if the worker never assigned it). -/
def TestExecutor.GetState (ex : TestExecutor) :
    Except PyErr (Option TestState) :=
  match ex.test_state with
  | Attr.unset => Except.error PyErr.attributeError
  | Attr.set v => Except.ok v

/-- `TestExecutor.Finalize` (lines 79-96): raise TestStopError when
`self._test_state` is falsy; force-finalize as ABORTED when not yet
finalized; return the TestState. -/
def TestExecutor.Finalize (ex : TestExecutor) :
    Except PyErr (TestExecutor × TestState) :=
  match ex.test_state with
  | Attr.unset => Except.error PyErr.attributeError
  | Attr.set none => Except.error PyErr.testStopError
  | Attr.set (some ts) =>
      if ts.is_finalized then Except.ok (ex, ts)
      else
        match ts.Finalize (some Outcome.ABORTED) with
        | Except.error e => Except.error e
        | Except.ok ts2 =>
            Except.ok ({ ex with test_state := Attr.set (some ts2) }, ts2)

/-- `TestExecutor.Wait` (lines 98-106): join the worker; when a
KeyboardInterrupt arrives during the join, call
`self._test_state.Finalize(ABORTED)` unconditionally and re-raise.
The exception raised out of `Wait`, if any, is returned alongside the
executor state: accessing `self._test_state.logger` raises AttributeError
when the attribute is unset or `None`, `TestState.Finalize` raises when the
state is already finalized, and otherwise the KeyboardInterrupt itself is
re-raised. -/
def TestExecutor.Wait (ex : TestExecutor) (interrupted : Bool) :
    TestExecutor × Option PyErr :=
  if interrupted then
    match ex.test_state with
    | Attr.unset => (ex, some PyErr.attributeError)
    | Attr.set none => (ex, some PyErr.attributeError)
    | Attr.set (some ts) =>
        match ts.Finalize (some Outcome.ABORTED) with
        | Except.error e => (ex, some e)
        | Except.ok ts2 =>
            ({ ex with test_state := Attr.set (some ts2) },
             some PyErr.keyboardInterrupt)
  else (ex, none)

/-- The phase-iteration loop of `_ExecuteTestPhases` (lines 174-185): fold the
engine's lazy sequence of phase outcomes, breaking on the first terminal one;
`intr` is the number of outcomes processed before a KeyboardInterrupt lands
(none = no interrupt), and the handler finalizes as ABORTED and re-raises.
Returns the state, whether the loop broke early, and the exception raised
out of the `try` block, if any. -/
def execPhaseLoop (ts : TestState) (outs : List PhaseOutcome)
    (intr : Option Nat) : TestState × Bool × Option PyErr :=
  if intr = some 0 then
    match ts.Finalize (some Outcome.ABORTED) with
    | Except.ok ts2 => (ts2, false, some PyErr.keyboardInterrupt)
    | Except.error e => (ts, false, some e)
  else
    match outs with
    | [] => (ts, false, none)
    | po :: rest =>
        let (ts2, stop) := ts.SetStatusFromPhaseOutcome po
        if stop then (ts2, true, none)
        else execPhaseLoop ts2 rest (intr.map (· - 1))

/-- Result of running `_ExecuteTestPhases`: the TestState on exit, how many
times the teardown phase executed, and the exception propagating out, if
any. -/
structure ExecResult where
  ts : TestState
  teardownRuns : Nat
  err : Option PyErr
  deriving DecidableEq, Repr

/-- `TestExecutor._ExecuteTestPhases` (lines 170-190): mark the state running;
iterate the phase outcomes, breaking on a terminal one; when the loop
completes without a break (the for-else) finalize with the derived outcome;
when a KeyboardInterrupt is caught, finalize as ABORTED and re-raise; then,
only when no exception is propagating, run the configured teardown function
once via `executor._ExecuteOnePhase` — modelled from the spec as recording
but never re-raising failures and leaving the TestState unchanged. -/
def ExecuteTestPhases (ts : TestState) (teardown_function : Option PhaseDescriptor)
    (outs : List PhaseOutcome) (intr : Option Nat) : ExecResult :=
  let ts1 := ts.SetStatusRunning
  match execPhaseLoop ts1 outs intr with
  | (ts2, _, some e) => { ts := ts2, teardownRuns := 0, err := some e }
  | (ts2, broke, none) =>
      match (if broke then Except.ok ts2 else ts2.Finalize none :
              Except PyErr TestState) with
      | Except.error e => { ts := ts2, teardownRuns := 0, err := some e }
      | Except.ok ts3 =>
          match teardown_function with
          | some _ => { ts := ts3, teardownRuns := 1, err := none }
          | none => { ts := ts3, teardownRuns := 0, err := none }

/-- How the worker procedure leaves the `with ExitStack()` block of
`_ThreadProc` (line 119): by completing normally, by an external `Stop()`
having closed the stack before the unwind, or by an unhandled failure
propagating out of the block. -/
inductive ExitMode
  | normalCompletion
  | externalStop
  | unhandledFailure
  deriving DecidableEq, Repr

/-- The release actions observed over one run of `_ThreadProc` once both
registrations happened — `TearDownPlugs` pushed first (line 146),
`executor.Stop` pushed second (line 167) — in the order they run.  The
`with` block closes the stack on every exit (lines 119-156); under an
external stop, `Stop()` (line 76) closes it first and the `with`-exit close
then finds the stack spent. -/
def ThreadProcReleases (mode : ExitMode) : List Action :=
  let s0 := (({} : ExitStack).callback Action.tearDownPlugs).callback
      Action.executorStop
  match mode with
  | ExitMode.externalStop =>
      let (r1, s1) := s0.close
      let (r2, _) := s1.close
      r1 ++ r2
  | _ => (s0.close).1

/-- Program points of the worker procedure `_ThreadProc` (lines 112-156),
used by the interleaving model:
0 = about to run `self._exit_stack = None` (line 115);
1 = about to enter the `with` block and run `self._exit_stack = exit_stack`
(lines 119-126, under the lock);
2 = about to run the slow unlocked section: TestState creation, start
trigger, plug initialization (lines 128-134);
3 = about to run the guarded check-and-register block (lines 136-149);
4 = about to iterate phases and leave the `with` block (line 156). -/
structure Sys where
  ex : TestExecutor
  wpc : Nat := 0
  done : Bool := false
  workerErr : Option PyErr := none
  plugTeardownBestEffort : Nat := 0
  released : List Action := []
  deriving DecidableEq, Repr

/-- One step of the worker thread at its current program point.  At point 3
the guarded check (line 137) reads `self._exit_stack`: when falsy it tears
down plugs best-effort and raises TestStopError (lines 138-143), the
`with`-exit close releasing whatever was pushed; otherwise it registers the
plug-teardown and phase-executor-stop callbacks (lines 146-149).  At point 4
the procedure finishes and the `with`-exit closes the stack. -/
def workerStep (s : Sys) : Sys :=
  if s.done then s else
  match s.wpc with
  | 0 => { s with ex := { s.ex with exit_stack := Attr.set none }, wpc := 1 }
  | 1 => { s with ex := { s.ex with exit_stack := Attr.set (some {}) },
                  wpc := 2 }
  | 2 => { s with ex := { s.ex with test_state := Attr.set (some {}) },
                  wpc := 3 }
  | 3 =>
      match s.ex.exit_stack with
      | Attr.set (some st) =>
          let st2 := (st.callback Action.tearDownPlugs).callback
              Action.executorStop
          { s with ex := { s.ex with exit_stack := Attr.set (some st2) },
                   wpc := 4 }
      | Attr.set none =>
          { s with plugTeardownBestEffort := s.plugTeardownBestEffort + 1,
                   workerErr := some PyErr.testStopError, done := true }
      | Attr.unset =>
          { s with workerErr := some PyErr.attributeError, done := true }
  | _ =>
      match s.ex.exit_stack with
      | Attr.set (some st) =>
          let (r, st2) := st.close
          { s with ex := { s.ex with exit_stack := Attr.set (some st2) },
                   released := s.released ++ r, done := true }
      | _ => { s with done := true }

/-- A `Stop()` call from the controller thread: the locked body runs
atomically against the worker's locked regions; an AttributeError propagates
to the controller, leaving the executor unchanged. -/
def stopStep (s : Sys) : Sys :=
  match s.ex.Stop with
  | Except.error _ => s
  | Except.ok (ex2, r) => { s with ex := ex2, released := s.released ++ r }

/-- Best-effort delivery of a requested kill: if the worker is still running,
it aborts at this cooperation point and the `with`-exit close of the stack
runs. -/
def killStep (s : Sys) : Sys :=
  if s.ex.killed && !s.done then
    match s.ex.exit_stack with
    | Attr.set (some st) =>
        let (r, st2) := st.close
        { s with ex := { s.ex with exit_stack := Attr.set (some st2) },
                 released := s.released ++ r,
                 workerErr := some PyErr.threadTermination, done := true }
    | _ => { s with workerErr := some PyErr.threadTermination, done := true }
  else s

/-- Interleaving events: a worker step, a controller `Stop()` call, or the
landing of a requested kill. -/
inductive Ev
  | w
  | stop
  | kill
  deriving DecidableEq, Repr

/-- One scheduled event. -/
def sysStep (s : Sys) : Ev → Sys
  | Ev.w => workerStep s
  | Ev.stop => stopStep s
  | Ev.kill => killStep s

/-- Run a schedule of interleaved events from a just-constructed executor
whose worker was started. -/
def sysRun (ex : TestExecutor) (sched : List Ev) : Sys :=
  sched.foldl sysStep { ex := ex }

instance {α β : Type} [DecidableEq α] [DecidableEq β] :
    DecidableEq (Except α β)
  | Except.ok x, Except.ok y =>
      if h : x = y then isTrue (by rw [h])
      else isFalse (by intro hc; cases hc; exact h rfl)
  | Except.ok _, Except.error _ => isFalse (by intro hc; cases hc)
  | Except.error _, Except.ok _ => isFalse (by intro hc; cases hc)
  | Except.error x, Except.error y =>
      if h : x = y then isTrue (by rw [h])
      else isFalse (by intro hc; cases hc; exact h rfl)

/-- A TestState finalized with outcome PASS, as left by a normal run. -/
def finalizedPass : TestState :=
  { is_finalized := true, outcome := some Outcome.PASS }

/-- An executor whose run already finalized with PASS while the worker is
still alive (for example, during the teardown phase). -/
def exFinalizedPass : TestExecutor :=
  { test_state := Attr.set (some finalizedPass) }

/-- A TestState finalized with outcome FAIL. -/
def finalizedFail : TestState :=
  { derived := Outcome.FAIL, is_finalized := true,
    outcome := some Outcome.FAIL }

/-- An executor whose run already finalized with FAIL while the worker is
still alive. -/
def exFinalizedFail : TestExecutor :=
  { test_state := Attr.set (some finalizedFail) }

/-- An executor whose worker created a fresh, unfinalized TestState. -/
def exFreshState : TestExecutor :=
  { test_state := Attr.set (some {}) }

/-- An executor whose worker installed the exit stack and registered the
plug-teardown callback. -/
def exInstalledStack : TestExecutor :=
  { exit_stack := Attr.set (some ⟨[Action.tearDownPlugs]⟩) }

/-- The executor `exInstalledStack` after `Stop()`: the stack object is
spent but the attribute still holds it, and a kill is requested. -/
def exAfterStop : TestExecutor :=
  { exit_stack := Attr.set (some ⟨[]⟩), killed := true }

/-- A system state at the guarded check whose exit-stack attribute is
`None` — the defensive-branch scenario of the check (line 137). -/
def sysAtCheckCleared : Sys :=
  { ex := { exit_stack := Attr.set none, test_state := Attr.set (some {}) },
    wpc := 3 }

/-- A system state at the guarded check with the stack installed. -/
def sysAtCheckInstalled : Sys :=
  { ex := { exit_stack := Attr.set (some ⟨[]⟩),
            test_state := Attr.set (some {}) },
    wpc := 3 }

/-- Invariant of the interleaved system: past the installation step the
exit-stack attribute always holds a stack object (no step ever writes
`None` back after line 126), and the race-loss branch of the guarded check
has never run. -/
def SysInv (s : Sys) : Prop :=
  (2 ≤ s.wpc → ∃ st, s.ex.exit_stack = Attr.set (some st)) ∧
  s.workerErr ≠ some PyErr.testStopError ∧
  s.plugTeardownBestEffort = 0

/-! Theorems for the claims. -/

/-- C1: when the worker procedure exits — by normal completion, by an
external stop, or by an unhandled failure — the cleanup stack runs each
registered release action exactly once and in strict reverse order of
registration: the phase-executor Stop action (registered second) runs before
the plug-teardown action (registered first). -/
theorem cleanup_releases_reverse_order_exactly_once (mode : ExitMode) :
    ThreadProcReleases mode = [Action.executorStop, Action.tearDownPlugs] ∧
    (ThreadProcReleases mode).count Action.executorStop = 1 ∧
    (ThreadProcReleases mode).count Action.tearDownPlugs = 1 := by
  cases mode <;> exact ⟨rfl, rfl, rfl⟩

/-- C5: for every teardown function supplied at construction, the stored
teardown phase carries `timeout_s = conf.teardown_timeout_s`, whatever
timeout (or absence of one) the supplied declaration carried, while the rest
of the descriptor is the wrap-or-copy of the supplied function. -/
theorem teardown_timeout_forced (td : TestDescriptor) (c : Conf)
    (start : Option Unit) (f : PhaseDescriptor) :
    (TestExecutor.init td c start (some f)).teardown_function =
      some { ident := (PhaseDescriptor.WrapOrCopy f).ident,
             options := { timeout_s := some c.teardown_timeout_s } } := rfl

/-- C9: on an executor whose worker has not yet begun its procedure, `Stop()`
reads the never-assigned `_exit_stack` attribute and raises AttributeError
instead of performing an idempotent no-op stop. -/
theorem stop_before_worker_raises_attribute_error (td : TestDescriptor)
    (c : Conf) (start : Option Unit) (f : Option PhaseDescriptor) :
    (TestExecutor.init td c start f).Stop =
      Except.error PyErr.attributeError := rfl

/-- C8 counterexample: on a just-constructed executor — before any run —
`GetState()` raises AttributeError rather than returning an absent value,
because `_test_state` is first assigned inside the worker procedure. -/
theorem getstate_before_start_fails :
    (TestExecutor.init {} {} none none).GetState =
        Except.error PyErr.attributeError ∧
    (TestExecutor.init {} {} none none).GetState ≠
        Except.ok none := by
  exact ⟨rfl, by decide⟩

/-- C8 amended: once the worker has assigned `_test_state`, `GetState()`
returns the current reference and cannot fail (and, being a pure read,
mutates nothing); before the worker has begun, the attribute is unset and
`GetState()` raises AttributeError instead of returning none. -/
theorem getstate_amended :
    (∀ (ex : TestExecutor) (v : Option TestState),
        ex.test_state = Attr.set v → ex.GetState = Except.ok v) ∧
    (∀ (td : TestDescriptor) (c : Conf) (start : Option Unit)
        (f : Option PhaseDescriptor),
        (TestExecutor.init td c start f).GetState =
          Except.error PyErr.attributeError) := by
  constructor
  · intro ex v h
    simp [TestExecutor.GetState, h]
  · intro td c start f
    rfl

/-- C8 amended, witness: both parts of the amended statement evaluated at
concrete executors. -/
theorem getstate_amended_witness :
    exFreshState.GetState = Except.ok (some {}) ∧
    (TestExecutor.init {} {} none none).GetState =
        Except.error PyErr.attributeError :=
  ⟨getstate_amended.1 exFreshState (some {}) rfl,
   getstate_amended.2 {} {} none none⟩

/-- C2 counterexample: with an already-finalized TestState, a
keyboard-level interrupt during `Wait()` makes the handler attempt
`TestState.Finalize(ABORTED)` a second time, and that attempt raises
instead of being a no-op returning the record. -/
theorem second_finalize_in_wait_not_noop :
    (exFinalizedPass.Wait true).2 = some PyErr.testAlreadyFinalized := by
  decide

/-- C2 amended: the already-finalized record is returned unchanged, with no
second TestState-level finalization, by the executor `Finalize()` entry
point; but `Wait()`'s interrupt handler attempts `TestState.Finalize`
unconditionally, and on an already-finalized state that second attempt
fails rather than no-ops. -/
theorem finalize_once_amended (ex : TestExecutor) (ts : TestState)
    (h : ex.test_state = Attr.set (some ts)) (hf : ts.is_finalized = true) :
    ex.Finalize = Except.ok (ex, ts) ∧
    ex.Wait true = (ex, some PyErr.testAlreadyFinalized) := by
  constructor
  · simp [TestExecutor.Finalize, h, hf]
  · simp [TestExecutor.Wait, h, TestState.Finalize, hf]

/-- C2 amended, witness: the amended statement at a concrete executor
holding a finalized PASS record. -/
theorem finalize_once_amended_witness :
    exFinalizedPass.Finalize = Except.ok (exFinalizedPass, finalizedPass) ∧
    exFinalizedPass.Wait true =
      (exFinalizedPass, some PyErr.testAlreadyFinalized) :=
  finalize_once_amended exFinalizedPass finalizedPass rfl rfl

/-- C7 counterexample: with an already-finalized FAIL record, an interrupt
during `Wait()` is not re-raised — the handler's unconditional finalize
attempt raises in its place — and the record keeps its FAIL outcome rather
than becoming ABORTED. -/
theorem wait_interrupt_swallowed :
    (exFinalizedFail.Wait true).2 ≠ some PyErr.keyboardInterrupt ∧
    (exFinalizedFail.Wait true).1.test_state =
      Attr.set (some finalizedFail) := by decide

/-- C7 amended: when a keyboard-level interrupt arrives during `Wait()` and
the TestState exists and is not yet finalized, `Wait()` finalizes it as
ABORTED and re-raises the interrupt; when it is already finalized, the
handler's unconditional finalize attempt fails and that failure propagates
in place of the interrupt. -/
theorem wait_interrupt_amended (ex : TestExecutor) (ts : TestState)
    (h : ex.test_state = Attr.set (some ts)) :
    (ts.is_finalized = false →
      ex.Wait true =
        ({ ex with test_state := Attr.set (some { ts with
             is_finalized := true, outcome := some Outcome.ABORTED }) },
         some PyErr.keyboardInterrupt)) ∧
    (ts.is_finalized = true →
      ex.Wait true = (ex, some PyErr.testAlreadyFinalized)) := by
  constructor
  · intro hf
    simp [TestExecutor.Wait, h, TestState.Finalize, hf]
  · intro hf
    simp [TestExecutor.Wait, h, TestState.Finalize, hf]

/-- C7 amended, witness: the not-yet-finalized branch evaluated on a fresh
TestState: the interrupt is re-raised and the record ends ABORTED. -/
theorem wait_interrupt_amended_witness :
    exFreshState.Wait true =
      ({ exFreshState with test_state := Attr.set (some { ({} : TestState)
           with is_finalized := true, outcome := some Outcome.ABORTED }) },
       some PyErr.keyboardInterrupt) :=
  (wait_interrupt_amended exFreshState {} rfl).1 rfl

/-- Helper: with no interrupt, the phase loop raises nothing, preserves the
not-finalized flag, and breaks exactly when some outcome is terminal. -/
theorem execPhaseLoop_no_intr (outs : List PhaseOutcome) (ts : TestState) :
    (execPhaseLoop ts outs none).1.is_finalized = ts.is_finalized ∧
    (execPhaseLoop ts outs none).2.1 =
      outs.any (fun po => po.is_terminal) ∧
    (execPhaseLoop ts outs none).2.2 = none := by
  induction outs generalizing ts with
  | nil => simp [execPhaseLoop]
  | cons po rest ih =>
      by_cases h : po.is_terminal
      · simp [execPhaseLoop, TestState.SetStatusFromPhaseOutcome, h]
      · simp only [execPhaseLoop, TestState.SetStatusFromPhaseOutcome]
        simp only [h, if_false, Option.map_none]
        obtain ⟨h1, h2, h3⟩ := ih { ts with derived := po.result }
        refine ⟨h1, ?_, h3⟩
        simp [h2, h, List.any_cons]

/-- Helper: an interrupt landing at once makes the loop finalize as ABORTED
and re-raise the interrupt. -/
theorem execPhaseLoop_intr_zero (ts : TestState) (outs : List PhaseOutcome)
    (h : ts.is_finalized = false) :
    execPhaseLoop ts outs (some 0) =
      ({ ts with is_finalized := true, outcome := some Outcome.ABORTED },
       false, some PyErr.keyboardInterrupt) := by
  cases outs <;> simp [execPhaseLoop, TestState.Finalize, h]

/-- C3 counterexample: a run whose single phase outcome is terminal makes
the loop halt early; `_ExecuteTestPhases` then returns with the TestState
still unfinalized and no exception pending, so the worker terminates
without any last-resort finalize. -/
theorem early_halt_leaves_unfinalized :
    (ExecuteTestPhases {} none
        [{ result := Outcome.FAIL, is_terminal := true }] none).ts.is_finalized
      = false ∧
    (ExecuteTestPhases {} none
        [{ result := Outcome.FAIL, is_terminal := true }] none).err = none := by
  decide

/-- C3 amended: starting from an unfinalized TestState and with no
interrupt, the worker's phase path finalizes the state exactly when no
phase outcome is terminal — an early halt leaves the state unfinalized at
worker exit — and the last-resort finalize-as-ABORTED lives in the
controller's `Finalize()` entry point, which force-finalizes any
still-unfinalized state as ABORTED. -/
theorem worker_finalize_amended (ts : TestState) (outs : List PhaseOutcome)
    (td : Option PhaseDescriptor) (h : ts.is_finalized = false) :
    ((ExecuteTestPhases ts td outs none).ts.is_finalized =
       !outs.any (fun po => po.is_terminal)) ∧
    (∀ (ex : TestExecutor) (ts2 : TestState),
       ex.test_state = Attr.set (some ts2) → ts2.is_finalized = false →
       ex.Finalize =
         Except.ok ({ ex with test_state := Attr.set (some { ts2 with
             is_finalized := true, outcome := some Outcome.ABORTED }) },
           { ts2 with
             is_finalized := true, outcome := some Outcome.ABORTED })) := by
  constructor
  · obtain ⟨h1, h2, h3⟩ := execPhaseLoop_no_intr outs ts.SetStatusRunning
    rcases hE : execPhaseLoop ts.SetStatusRunning outs none with ⟨tsl, broke, err⟩
    rw [hE] at h1 h2 h3
    simp only at h1 h2 h3
    subst h3
    have hfl : tsl.is_finalized = false := by
      rw [h1]; exact h
    by_cases hb : outs.any (fun po => po.is_terminal)
    · rw [hb] at h2
      subst h2
      cases td <;> simp [ExecuteTestPhases, hE, hb, hfl]
    · simp only [Bool.not_eq_true] at hb
      rw [hb] at h2
      subst h2
      simp [ExecuteTestPhases, hE, hb, TestState.Finalize, hfl]
      cases td <;> simp
  · intro ex ts2 hx hf
    simp [TestExecutor.Finalize, hx, hf, TestState.Finalize]

/-- C3 amended, witness: the finalization criterion evaluated on the
one-terminal-outcome run, and the controller force-finalize evaluated on an
executor holding a fresh state. -/
theorem worker_finalize_amended_witness :
    ((ExecuteTestPhases {} none
        [{ result := Outcome.FAIL, is_terminal := true }] none).ts.is_finalized
       = !([{ result := Outcome.FAIL, is_terminal := true }] :
            List PhaseOutcome).any (fun po => po.is_terminal)) ∧
    exFreshState.Finalize =
      Except.ok ({ exFreshState with test_state := Attr.set (some
          { ({} : TestState) with
            is_finalized := true, outcome := some Outcome.ABORTED }) },
        { ({} : TestState) with
          is_finalized := true, outcome := some Outcome.ABORTED }) :=
  ⟨(worker_finalize_amended {} _ none rfl).1,
   (worker_finalize_amended {} [] none rfl).2 exFreshState {} rfl rfl⟩

/-- C6 counterexample: with a teardown function configured and a
KeyboardInterrupt landing during phase iteration, the interrupt is
re-raised before the teardown block and the teardown phase never runs. -/
theorem teardown_skipped_on_interrupt :
    (ExecuteTestPhases {} (some {})
        [{ result := Outcome.PASS, is_terminal := false }]
        (some 0)).teardownRuns = 0 ∧
    (ExecuteTestPhases {} (some {})
        [{ result := Outcome.PASS, is_terminal := false }] (some 0)).err =
      some PyErr.keyboardInterrupt := by
  decide

/-- C6 amended: with a teardown function configured and no interrupt
landing during phase iteration, the worker executes the teardown phase
exactly once after the iteration ends — whether it completed or halted
early on a terminal outcome — and re-raises nothing past it; when a
KeyboardInterrupt lands during iteration, the exception is re-raised before
the teardown block, which therefore does not run. -/
theorem teardown_runs_amended (ts : TestState) (outs : List PhaseOutcome)
    (f : PhaseDescriptor) (h : ts.is_finalized = false) :
    (ExecuteTestPhases ts (some f) outs none).teardownRuns = 1 ∧
    (ExecuteTestPhases ts (some f) outs none).err = none ∧
    (ExecuteTestPhases ts (some f) outs (some 0)).teardownRuns = 0 := by
  obtain ⟨h1, h2, h3⟩ := execPhaseLoop_no_intr outs ts.SetStatusRunning
  rcases hE : execPhaseLoop ts.SetStatusRunning outs none with ⟨tsl, broke, err⟩
  rw [hE] at h1 h2 h3
  simp only at h1 h2 h3
  subst h3
  have hfl : tsl.is_finalized = false := by rw [h1]; exact h
  refine ⟨?_, ?_, ?_⟩
  · cases broke <;> simp [ExecuteTestPhases, hE, TestState.Finalize, hfl]
  · cases broke <;> simp [ExecuteTestPhases, hE, TestState.Finalize, hfl]
  · have hs : ts.SetStatusRunning.is_finalized = false := h
    simp [ExecuteTestPhases, execPhaseLoop_intr_zero _ _ hs]

/-- C6 amended, witness: the amended statement on a fresh state with one
non-terminal outcome. -/
theorem teardown_runs_amended_witness :
    (ExecuteTestPhases {} (some {})
        [{ result := Outcome.PASS, is_terminal := false }]
        none).teardownRuns = 1 ∧
    (ExecuteTestPhases {} (some {})
        [{ result := Outcome.PASS, is_terminal := false }] none).err = none ∧
    (ExecuteTestPhases {} (some {})
        [{ result := Outcome.PASS, is_terminal := false }]
        (some 0)).teardownRuns = 0 :=
  teardown_runs_amended {} [{ result := Outcome.PASS, is_terminal := false }]
    {} rfl

/-- Helper: a worker step preserves the system invariant. -/
theorem sysInv_workerStep (s : Sys) (h : SysInv s) : SysInv (workerStep s) := by
  obtain ⟨hA, hB, hC⟩ := h
  rcases s with ⟨ex, wpc, done, werr, ptd, rel⟩
  cases done with
  | true => exact ⟨hA, hB, hC⟩
  | false =>
      obtain (_|_|_|_|n) := wpc
      · exact ⟨fun hle => absurd (show 2 ≤ 1 from hle) (by decide), hB, hC⟩
      · exact ⟨fun _ => ⟨{}, rfl⟩, hB, hC⟩
      · exact ⟨fun _ => hA (Nat.le_refl 2), hB, hC⟩
      · obtain ⟨st, hst⟩ := hA (show 2 ≤ 3 by decide)
        rcases ex with ⟨tf, tdd, tst, tss, estk, kl⟩
        have hst2 : estk = Attr.set (some st) := hst
        subst hst2
        exact ⟨fun _ => ⟨_, rfl⟩, hB, hC⟩
      · obtain ⟨st, hst⟩ := hA (Nat.le_add_left 2 (n + 2))
        rcases ex with ⟨tf, tdd, tst, tss, estk, kl⟩
        have hst2 : estk = Attr.set (some st) := hst
        subst hst2
        exact ⟨fun _ => ⟨_, rfl⟩, hB, hC⟩

/-- Helper: a controller `Stop()` call preserves the system invariant. -/
theorem sysInv_stopStep (s : Sys) (h : SysInv s) : SysInv (stopStep s) := by
  obtain ⟨hA, hB, hC⟩ := h
  rcases s with ⟨ex, wpc, done, werr, ptd, rel⟩
  rcases ex with ⟨tf, tdd, tst, tss, estk, kl⟩
  rcases estk with _ | (_ | st)
  · exact ⟨hA, hB, hC⟩
  · exact ⟨fun hle => hA hle, hB, hC⟩
  · exact ⟨fun _ => ⟨_, rfl⟩, hB, hC⟩

/-- Helper: a kill landing preserves the system invariant. -/
theorem sysInv_killStep (s : Sys) (h : SysInv s) : SysInv (killStep s) := by
  obtain ⟨hA, hB, hC⟩ := h
  rcases s with ⟨ex, wpc, done, werr, ptd, rel⟩
  rcases ex with ⟨tf, tdd, tst, tss, estk, kl⟩
  cases kl with
  | false => exact ⟨hA, hB, hC⟩
  | true =>
      cases done with
      | true => exact ⟨hA, hB, hC⟩
      | false =>
          rcases estk with _ | (_ | st)
          · exact ⟨hA, fun hc => PyErr.noConfusion (Option.some.inj hc), hC⟩
          · exact ⟨fun hle => hA hle,
              fun hc => PyErr.noConfusion (Option.some.inj hc), hC⟩
          · exact ⟨fun _ => ⟨_, rfl⟩,
              fun hc => PyErr.noConfusion (Option.some.inj hc), hC⟩

/-- Helper: every scheduled event preserves the system invariant. -/
theorem sysInv_sysStep (s : Sys) (e : Ev) (h : SysInv s) :
    SysInv (sysStep s e) := by
  cases e
  · exact sysInv_workerStep s h
  · exact sysInv_stopStep s h
  · exact sysInv_killStep s h

/-- Helper: the invariant holds along any schedule from any start state
satisfying it. -/
theorem sysInv_foldl (sched : List Ev) (s : Sys) (h : SysInv s) :
    SysInv (sched.foldl sysStep s) := by
  induction sched generalizing s with
  | nil => exact h
  | cons e rest ih => exact ih (sysStep s e) (sysInv_sysStep s e h)

/-- C4: at the guarded check of the worker (line 137), observing a falsy
exit-stack attribute makes the worker tear down plugs best-effort and fail
with TestStopError without ever proceeding to phase execution; observing
the installed stack makes it register the plug-teardown and
phase-executor-stop callbacks and proceed, and a `Stop()` arriving
afterwards observes the installed stack and closes it, releasing the
registered actions in reverse order of registration. -/
theorem guarded_check_and_stop (s : Sys) (hd : s.done = false)
    (hw : s.wpc = 3) :
    (s.ex.exit_stack = Attr.set none →
       (workerStep s).workerErr = some PyErr.testStopError ∧
       (workerStep s).plugTeardownBestEffort =
         s.plugTeardownBestEffort + 1 ∧
       (workerStep s).done = true ∧
       (workerStep s).wpc = 3) ∧
    (∀ st, s.ex.exit_stack = Attr.set (some st) →
       (workerStep s).wpc = 4 ∧
       (workerStep s).ex.exit_stack = Attr.set (some
         ((st.callback Action.tearDownPlugs).callback Action.executorStop)) ∧
       (∃ ex2, ((workerStep s).ex).Stop = Except.ok (ex2,
          Action.executorStop :: Action.tearDownPlugs :: st.callbacks))) := by
  rcases s with ⟨ex, wpc, done, werr, ptd, rel⟩
  obtain rfl : done = false := hd
  obtain rfl : wpc = 3 := hw
  rcases ex with ⟨tf, tdd, tst, tss, estk, kl⟩
  constructor
  · intro hE
    obtain rfl : estk = Attr.set none := hE
    exact ⟨rfl, rfl, rfl, rfl⟩
  · intro st hE
    obtain rfl : estk = Attr.set (some st) := hE
    exact ⟨rfl, rfl, ⟨_, rfl⟩⟩

/-- C4, witness: the defensive branch evaluated at a state whose attribute
is `None`, and the register-then-stop path evaluated at a state with the
installed stack. -/
theorem guarded_check_and_stop_witness :
    (workerStep sysAtCheckCleared).workerErr = some PyErr.testStopError ∧
    (workerStep sysAtCheckInstalled).ex.exit_stack = Attr.set (some
      (((⟨[]⟩ : ExitStack).callback Action.tearDownPlugs).callback
        Action.executorStop)) :=
  ⟨((guarded_check_and_stop sysAtCheckCleared rfl rfl).1 rfl).1,
   ((guarded_check_and_stop sysAtCheckInstalled rfl rfl).2 ⟨[]⟩ rfl).2.1⟩

/-- C10: `Stop()` closes the installed exit stack but never resets the
`_exit_stack` handle to an absent or falsy value — after a successful
`Stop()` an installed handle still holds a (spent) stack object, and a
`None` handle stays `None` — and consequently, over every interleaving of
worker steps, `Stop()` calls and kill deliveries starting from a fresh
executor, the guarded check never observes an absent stack: the
best-effort-teardown-and-TestStopError branch never executes. -/
theorem stop_never_clears_stack_handle :
    (∀ (ex ex2 : TestExecutor) (r : List Action),
       ex.Stop = Except.ok (ex2, r) →
       (∀ st, ex.exit_stack = Attr.set (some st) →
          ex2.exit_stack = Attr.set (some (⟨[]⟩ : ExitStack))) ∧
       (ex.exit_stack = Attr.set none → ex2.exit_stack = Attr.set none)) ∧
    (∀ (td : TestDescriptor) (c : Conf) (start : Option Unit)
       (f : Option PhaseDescriptor) (sched : List Ev),
       (sysRun (TestExecutor.init td c start f) sched).workerErr ≠
           some PyErr.testStopError ∧
       (sysRun (TestExecutor.init td c start f)
           sched).plugTeardownBestEffort = 0) := by
  constructor
  · intro ex ex2 r hStop
    rcases ex with ⟨tf, tdd, tst, tss, estk, kl⟩
    rcases estk with _ | (_ | st0)
    · exact Except.noConfusion hStop
    · injection hStop with h1
      injection h1 with h2 h3
      subst h2
      subst h3
      constructor
      · intro st hst
        injection hst with h4
        exact Option.noConfusion h4
      · intro _
        rfl
    · injection hStop with h1
      injection h1 with h2 h3
      subst h2
      subst h3
      constructor
      · intro st hst
        rfl
      · intro hst
        injection hst with h4
        exact Option.noConfusion h4
  · intro td c start f sched
    have h := sysInv_foldl sched { ex := TestExecutor.init td c start f }
      ⟨fun hle => absurd (show 2 ≤ 0 from hle) (by decide),
       fun hc => Option.noConfusion hc, rfl⟩
    exact ⟨h.2.1, h.2.2⟩

/-- C10, witness: the handle-preservation clause at a concrete executor
with an installed stack, and the unreachability clause at a concrete
schedule that stops before installation, stops after it, and kills. -/
theorem stop_never_clears_stack_handle_witness :
    exAfterStop.exit_stack = Attr.set (some (⟨[]⟩ : ExitStack)) ∧
    (sysRun (TestExecutor.init {} {} none none)
        [Ev.stop, Ev.w, Ev.w, Ev.stop, Ev.w, Ev.w, Ev.kill,
         Ev.w]).workerErr ≠ some PyErr.testStopError :=
  ⟨(stop_never_clears_stack_handle.1 exInstalledStack exAfterStop
      [Action.tearDownPlugs] rfl).1 ⟨[Action.tearDownPlugs]⟩ rfl,
   (stop_never_clears_stack_handle.2 {} {} none none
      [Ev.stop, Ev.w, Ev.w, Ev.stop, Ev.w, Ev.w, Ev.kill, Ev.w]).1⟩

end OpenHTF
